import Mathlib

set_option maxHeartbeats 1000000

/-
Shallow embedding of `src-tauri/src/lib.rs` of binblock-plusplus: a Tauri
bootstrap that registers three plugins, builds a static menu bar
(About, Edit {Undo, Redo, separator, Clear Grid}, View {Reset View}),
attaches it, and forwards menu activations to the window named "main"
as "menu-event" window events.

Host-determined outcomes (whether a fallible builder call, plugin
registration or the run loop succeeds) are inputs of the model, given as
`Option String` fields (`none` = success, `some e` = failure with error
message `e`), mirroring the `Result` values the Rust code receives.
-/

namespace Binblock

/-- A menu item as produced by `MenuItemBuilder::build`: stable string id,
label, optional accelerator string. -/
structure MenuItem where
  id : String
  label : String
  accelerator : Option String
deriving Repr, DecidableEq

/-- An entry of a submenu: a custom item or a separator, in insertion order. -/
inductive SubEntry where
  | item (it : MenuItem)
  | separator
deriving Repr, DecidableEq

/-- A submenu as produced by `SubmenuBuilder::build`: a title and the ordered
entries added to the builder. -/
structure Submenu where
  title : String
  entries : List SubEntry
deriving Repr, DecidableEq

/-- A top-level entry of the menu bar: the predefined About item
(`PredefinedMenuItem::about(app, Some(name), None)`) or a submenu. -/
inductive TopEntry where
  | about (appName : Option String)
  | submenu (s : Submenu)
deriving Repr, DecidableEq

/-- The menu bar: the ordered top-level entries added to `MenuBuilder`. -/
abbrev Menu := List TopEntry

/-- State of a `MenuItemBuilder` before `build`. -/
structure MenuItemBuilder where
  id : String
  text : String
  accel : Option String
deriving Repr, DecidableEq

/-- `MenuItemBuilder::with_id(id, text)`: a builder with no accelerator. -/
def MenuItemBuilder.with_id (id text : String) : MenuItemBuilder :=
  ⟨id, text, none⟩

/-- `MenuItemBuilder::accelerator(a)`: record the accelerator binding. -/
def MenuItemBuilder.accelerator (b : MenuItemBuilder) (a : String) : MenuItemBuilder :=
  { b with accel := some a }

/-- `MenuItemBuilder::build(app)`: fallible; on success the item carries
exactly the builder's id, label and accelerator. `host` is the
host-determined outcome of the call. -/
def MenuItemBuilder.build (b : MenuItemBuilder) (host : Option String) : Except String MenuItem :=
  match host with
  | some e => .error e
  | none => .ok ⟨b.id, b.text, b.accel⟩

/-- State of a `SubmenuBuilder` before `build`. -/
structure SubmenuBuilder where
  title : String
  entries : List SubEntry
deriving Repr, DecidableEq

/-- `SubmenuBuilder::new(app, title)`. -/
def SubmenuBuilder.new (title : String) : SubmenuBuilder :=
  ⟨title, []⟩

/-- `SubmenuBuilder::item(&it)`: append a custom item. -/
def SubmenuBuilder.item (b : SubmenuBuilder) (it : MenuItem) : SubmenuBuilder :=
  { b with entries := b.entries ++ [.item it] }

/-- `SubmenuBuilder::separator()`: append a separator. -/
def SubmenuBuilder.separator (b : SubmenuBuilder) : SubmenuBuilder :=
  { b with entries := b.entries ++ [.separator] }

/-- `SubmenuBuilder::build()`: fallible; on success the submenu carries the
builder's title and entries in insertion order. -/
def SubmenuBuilder.build (b : SubmenuBuilder) (host : Option String) : Except String Submenu :=
  match host with
  | some e => .error e
  | none => .ok ⟨b.title, b.entries⟩

/-- `PredefinedMenuItem::about(app, Some(name), None)`: fallible; on success
yields the predefined About entry. -/
def PredefinedMenuItem.about (appName : Option String) (host : Option String) :
    Except String TopEntry :=
  match host with
  | some e => .error e
  | none => .ok (.about appName)

/-- State of a `MenuBuilder` before `build`. -/
structure MenuBuilder where
  entries : List TopEntry
deriving Repr, DecidableEq

/-- `MenuBuilder::new(app)`. -/
def MenuBuilder.new : MenuBuilder :=
  ⟨[]⟩

/-- `MenuBuilder::item(&e)`: append a top-level entry. -/
def MenuBuilder.item (b : MenuBuilder) (e : TopEntry) : MenuBuilder :=
  { b with entries := b.entries ++ [e] }

/-- `MenuBuilder::build()`: fallible; on success the menu is the builder's
entries in insertion order. -/
def MenuBuilder.build (b : MenuBuilder) (host : Option String) : Except String Menu :=
  match host with
  | some e => .error e
  | none => .ok b.entries

/-- Result of a `window.emit` call, as the host reports it to the callback. -/
inductive EmitResult where
  | ok
  | error (e : String)
deriving Repr, DecidableEq

/-- A window event emission: target window label, event name, string payload. -/
structure Emission where
  window : String
  event : String
  payload : String
deriving Repr, DecidableEq

/-- `app_handle.get_webview_window(label)`: look the label up in the host's
window registry, modelled as the list of currently existing window labels. -/
def get_webview_window (windows : List String) (label : String) : Option String :=
  windows.find? (fun w => w == label)

/-- The menu-event callback registered by `app.on_menu_event`:
`let id = event.id().as_ref(); if let Some(window) =
app_handle.get_webview_window("main") { let _ = window.emit("menu-event", id); }`.
Returns the list of emissions the callback performs. `emitRes` is the
host-determined result of the `emit` call; the Rust code binds it to `_`,
discarding it. -/
def on_menu_event (windows : List String) (emitRes : EmitResult) (eventId : String) :
    List Emission :=
  match get_webview_window windows "main" with
  | some w =>
    let _discarded := emitRes
    [⟨w, "menu-event", eventId⟩]
  | none => []

/-- Looking up "main" succeeds with "main" itself exactly when a window with
that label exists. -/
theorem get_webview_window_main (windows : List String) :
    get_webview_window windows "main" = if "main" ∈ windows then some "main" else none := by
  induction windows with
  | nil => simp [get_webview_window]
  | cons w ws ih =>
    by_cases hw : w = "main"
    · subst hw
      simp [get_webview_window, List.find?]
    · simp only [get_webview_window, List.find?] at ih ⊢
      have hbeq : (w == "main") = false := by
        simpa using hw
      rw [hbeq]
      simp only [ih, List.mem_cons]
      by_cases hm : "main" ∈ ws
      · simp [hm]
      · simp [hm, Ne.symm hw]

/-- C1: while a window labelled "main" exists, the callback for a menu event
with id X emits exactly one window event, named "menu-event", with payload X,
targeted at "main", and no other window events. -/
theorem c1_menu_event_single_emission (windows : List String) (emitRes : EmitResult)
    (eventId : String) (h : "main" ∈ windows) :
    on_menu_event windows emitRes eventId = [⟨"main", "menu-event", eventId⟩] := by
  simp [on_menu_event, get_webview_window_main, h]

/-- Witness for C1 at a concrete input: with windows `["main"]`, event id
"edit:undo" yields exactly the one expected emission. -/
theorem c1_menu_event_single_emission_witness :
    on_menu_event ["main"] EmitResult.ok "edit:undo" =
      [⟨"main", "menu-event", "edit:undo"⟩] :=
  c1_menu_event_single_emission ["main"] EmitResult.ok "edit:undo" (by decide)

/-- C2: while no window labelled "main" exists, the callback emits nothing,
and its result does not depend on any emit outcome (no error is raised, no
retry occurs: the event is silently dropped). -/
theorem c2_no_main_window_drops_event (windows : List String) (emitRes : EmitResult)
    (eventId : String) (h : "main" ∉ windows) :
    on_menu_event windows emitRes eventId = [] ∧
      ∀ r : EmitResult, on_menu_event windows r eventId = on_menu_event windows emitRes eventId := by
  constructor
  · simp [on_menu_event, get_webview_window_main, h]
  · intro r
    simp [on_menu_event, get_webview_window_main, h]

/-- Witness for C2 at a concrete input: with windows `["settings"]` (no
"main"), the callback emits nothing. -/
theorem c2_no_main_window_drops_event_witness :
    on_menu_event ["settings"] EmitResult.ok "edit:undo" = [] ∧
      ∀ r : EmitResult, on_menu_event ["settings"] r "edit:undo" =
        on_menu_event ["settings"] EmitResult.ok "edit:undo" :=
  c2_no_main_window_drops_event ["settings"] EmitResult.ok "edit:undo" (by decide)

/-- A startup step, recorded when the corresponding operation succeeds. -/
inductive Step where
  | registerPlugin (name : String)
  | buildItem (id : String)
  | buildSubmenu (title : String)
  | buildAbout
  | buildMenu
  | setMenu
  | registerMenuHandler
  | startRunLoop
deriving Repr, DecidableEq

/-- Host-determined outcomes of each fallible call inside the setup closure,
in source order (`none` = success, `some e` = that call fails with `e`). -/
structure SetupEnv where
  undoBuild : Option String
  redoBuild : Option String
  clearBuild : Option String
  editBuild : Option String
  resetBuild : Option String
  viewBuild : Option String
  aboutBuild : Option String
  menuBuild : Option String
  setMenuCall : Option String
deriving Repr, DecidableEq

/-- The environment in which every fallible setup call succeeds. -/
def SetupEnv.allOk : SetupEnv :=
  ⟨none, none, none, none, none, none, none, none, none⟩

/-- `app.set_menu(menu)`: fallible attachment of the menu. -/
def set_menu (m : Menu) (host : Option String) : Except String Unit :=
  match host with
  | some e => .error e
  | none =>
    let _attached := m
    .ok ()

/-- Observable outcome of running the setup closure: the steps performed, the
`Result` the closure returns, the menu attached by `set_menu` (if reached and
successful), and whether `on_menu_event` registered the callback. -/
structure SetupOutcome where
  steps : List Step
  result : Except String Unit
  attachedMenu : Option Menu
  handlerRegistered : Bool
deriving Repr

/-- The setup closure of `run` in `src-tauri/src/lib.rs`, with each `?` of the
source modelled as an early return carrying the failing call's error. -/
def setup (env : SetupEnv) : SetupOutcome :=
  match MenuItemBuilder.build
      ((MenuItemBuilder.with_id "edit:undo" "Undo").accelerator "CmdOrCtrl+Z")
      env.undoBuild with
  | .error e => ⟨[], .error e, none, false⟩
  | .ok undo =>
  match MenuItemBuilder.build
      ((MenuItemBuilder.with_id "edit:redo" "Redo").accelerator "CmdOrCtrl+Shift+Z")
      env.redoBuild with
  | .error e => ⟨[.buildItem "edit:undo"], .error e, none, false⟩
  | .ok redo =>
  match MenuItemBuilder.build (MenuItemBuilder.with_id "edit:clear" "Clear Grid")
      env.clearBuild with
  | .error e => ⟨[.buildItem "edit:undo", .buildItem "edit:redo"], .error e, none, false⟩
  | .ok clear =>
  match SubmenuBuilder.build
      (((((SubmenuBuilder.new "Edit").item undo).item redo).separator).item clear)
      env.editBuild with
  | .error e =>
    ⟨[.buildItem "edit:undo", .buildItem "edit:redo", .buildItem "edit:clear"],
      .error e, none, false⟩
  | .ok edit_menu =>
  match MenuItemBuilder.build
      ((MenuItemBuilder.with_id "view:reset" "Reset View").accelerator "CmdOrCtrl+0")
      env.resetBuild with
  | .error e =>
    ⟨[.buildItem "edit:undo", .buildItem "edit:redo", .buildItem "edit:clear",
      .buildSubmenu "Edit"], .error e, none, false⟩
  | .ok reset_view =>
  match SubmenuBuilder.build ((SubmenuBuilder.new "View").item reset_view) env.viewBuild with
  | .error e =>
    ⟨[.buildItem "edit:undo", .buildItem "edit:redo", .buildItem "edit:clear",
      .buildSubmenu "Edit", .buildItem "view:reset"], .error e, none, false⟩
  | .ok view_menu =>
  match PredefinedMenuItem.about (some "binblock++") env.aboutBuild with
  | .error e =>
    ⟨[.buildItem "edit:undo", .buildItem "edit:redo", .buildItem "edit:clear",
      .buildSubmenu "Edit", .buildItem "view:reset", .buildSubmenu "View"],
      .error e, none, false⟩
  | .ok about_item =>
  match MenuBuilder.build
      (((MenuBuilder.new.item about_item).item (.submenu edit_menu)).item (.submenu view_menu))
      env.menuBuild with
  | .error e =>
    ⟨[.buildItem "edit:undo", .buildItem "edit:redo", .buildItem "edit:clear",
      .buildSubmenu "Edit", .buildItem "view:reset", .buildSubmenu "View", .buildAbout],
      .error e, none, false⟩
  | .ok menu =>
  match set_menu menu env.setMenuCall with
  | .error e =>
    ⟨[.buildItem "edit:undo", .buildItem "edit:redo", .buildItem "edit:clear",
      .buildSubmenu "Edit", .buildItem "view:reset", .buildSubmenu "View", .buildAbout,
      .buildMenu], .error e, none, false⟩
  | .ok _ =>
    ⟨[.buildItem "edit:undo", .buildItem "edit:redo", .buildItem "edit:clear",
      .buildSubmenu "Edit", .buildItem "view:reset", .buildSubmenu "View", .buildAbout,
      .buildMenu, .setMenu, .registerMenuHandler],
      .ok (), some menu, true⟩

/-- The ids of the custom items of a submenu entry, in order. -/
def subEntryIds : SubEntry → List String
  | .item it => [it.id]
  | .separator => []

/-- The ids of the custom items below a top-level entry, in order. -/
def topEntryIds : TopEntry → List String
  | .about _ => []
  | .submenu s => (s.entries.map subEntryIds).flatten

/-- The ids of all custom items of a menu, in menu order. -/
def menuItemIds (m : Menu) : List String := (m.map topEntryIds).flatten

/-- The custom items of a submenu entry. -/
def subEntryItems : SubEntry → List MenuItem
  | .item it => [it]
  | .separator => []

/-- The custom items below a top-level entry. -/
def topEntryItems : TopEntry → List MenuItem
  | .about _ => []
  | .submenu s => (s.entries.map subEntryItems).flatten

/-- The custom items of a menu, in menu order. -/
def menuItems (m : Menu) : List MenuItem := (m.map topEntryItems).flatten

/-- The first custom item of a menu carrying the given id. -/
def findItem (m : Menu) (id : String) : Option MenuItem :=
  (menuItems m).find? (fun it => it.id == id)

/-- Whether a top-level entry is a predefined About entry. -/
def TopEntry.isAbout : TopEntry → Bool
  | .about _ => true
  | .submenu _ => false

/-- The menu layout the spec asserts after successful initialization: About
first, then Edit with Undo, Redo, a separator and Clear Grid, then View with
Reset View. Stated from the spec's words, to be compared with the menu that
`setup` attaches. -/
def specMenu : Menu :=
  [.about (some "binblock++"),
   .submenu ⟨"Edit",
     [.item ⟨"edit:undo", "Undo", some "CmdOrCtrl+Z"⟩,
      .item ⟨"edit:redo", "Redo", some "CmdOrCtrl+Shift+Z"⟩,
      .separator,
      .item ⟨"edit:clear", "Clear Grid", none⟩]⟩,
   .submenu ⟨"View", [.item ⟨"view:reset", "Reset View", some "CmdOrCtrl+0"⟩]⟩]

/-- The setup closure succeeds exactly when every fallible call succeeds. -/
theorem setup_ok_iff (env : SetupEnv) :
    (setup env).result = .ok () ↔ env = SetupEnv.allOk := by
  obtain ⟨u, r, c, ed, rv, v, ab, mb, sm⟩ := env
  cases u <;> cases r <;> cases c <;> cases ed <;> cases rv <;> cases v <;>
    cases ab <;> cases mb <;> cases sm <;>
    simp [setup, SetupEnv.allOk, MenuItemBuilder.build, SubmenuBuilder.build,
      PredefinedMenuItem.about, MenuBuilder.build, set_menu]

/-- Either the setup closure succeeds, or the callback was never registered
and no menu was attached. -/
theorem setup_dichotomy (env : SetupEnv) :
    (setup env).result = .ok () ∨
      ((setup env).handlerRegistered = false ∧ (setup env).attachedMenu = none) := by
  obtain ⟨u, r, c, ed, rv, v, ab, mb, sm⟩ := env
  cases u <;> cases r <;> cases c <;> cases ed <;> cases rv <;> cases v <;>
    cases ab <;> cases mb <;> cases sm <;>
    simp [setup, MenuItemBuilder.build, SubmenuBuilder.build,
      PredefinedMenuItem.about, MenuBuilder.build, set_menu]

/-- Whenever the setup closure succeeds, the attached menu is exactly the
layout the spec asserts. -/
theorem setup_ok_menu (env : SetupEnv) (h : (setup env).result = .ok ()) :
    (setup env).attachedMenu = some specMenu := by
  have henv : env = SetupEnv.allOk := (setup_ok_iff env).mp h
  subst henv
  rfl

/-- C3: after successful initialization, the attached menu is exactly About
first, then the Edit submenu with Undo, Redo, a separator and Clear Grid in
that order, then the View submenu with Reset View; its custom item ids are
exactly "edit:undo", "edit:redo", "edit:clear", "view:reset" in that order,
and it contains exactly one predefined About entry. -/
theorem c3_menu_layout (env : SetupEnv) (h : (setup env).result = .ok ()) :
    (setup env).attachedMenu = some specMenu ∧
      specMenu =
        [.about (some "binblock++"),
         .submenu ⟨"Edit",
           [.item ⟨"edit:undo", "Undo", some "CmdOrCtrl+Z"⟩,
            .item ⟨"edit:redo", "Redo", some "CmdOrCtrl+Shift+Z"⟩,
            .separator,
            .item ⟨"edit:clear", "Clear Grid", none⟩]⟩,
         .submenu ⟨"View", [.item ⟨"view:reset", "Reset View", some "CmdOrCtrl+0"⟩]⟩] ∧
      menuItemIds specMenu = ["edit:undo", "edit:redo", "edit:clear", "view:reset"] ∧
      (specMenu.filter TopEntry.isAbout).length = 1 := by
  exact ⟨setup_ok_menu env h, rfl, rfl, rfl⟩

/-- Witness for C3 at the all-success environment. -/
theorem c3_menu_layout_witness :
    (setup SetupEnv.allOk).attachedMenu = some specMenu ∧
      specMenu =
        [.about (some "binblock++"),
         .submenu ⟨"Edit",
           [.item ⟨"edit:undo", "Undo", some "CmdOrCtrl+Z"⟩,
            .item ⟨"edit:redo", "Redo", some "CmdOrCtrl+Shift+Z"⟩,
            .separator,
            .item ⟨"edit:clear", "Clear Grid", none⟩]⟩,
         .submenu ⟨"View", [.item ⟨"view:reset", "Reset View", some "CmdOrCtrl+0"⟩]⟩] ∧
      menuItemIds specMenu = ["edit:undo", "edit:redo", "edit:clear", "view:reset"] ∧
      (specMenu.filter TopEntry.isAbout).length = 1 :=
  c3_menu_layout SetupEnv.allOk rfl

/-- C4: in the menu attached by a successful setup, "edit:undo" is bound to
CmdOrCtrl+Z, "edit:redo" to CmdOrCtrl+Shift+Z, "view:reset" to CmdOrCtrl+0,
and "edit:clear" exists but has no accelerator. -/
theorem c4_accelerators (env : SetupEnv) (m : Menu)
    (h : (setup env).result = .ok ()) (hm : (setup env).attachedMenu = some m) :
    (findItem m "edit:undo").map MenuItem.accelerator = some (some "CmdOrCtrl+Z") ∧
      (findItem m "edit:redo").map MenuItem.accelerator = some (some "CmdOrCtrl+Shift+Z") ∧
      (findItem m "view:reset").map MenuItem.accelerator = some (some "CmdOrCtrl+0") ∧
      (findItem m "edit:clear").map MenuItem.accelerator = some none := by
  have henv : env = SetupEnv.allOk := (setup_ok_iff env).mp h
  subst henv
  have hsm : some specMenu = some m := hm
  have hmsm : m = specMenu := (Option.some.inj hsm).symm
  subst hmsm
  exact ⟨rfl, rfl, rfl, rfl⟩

/-- Witness for C4 at the all-success environment and its attached menu. -/
theorem c4_accelerators_witness :
    (findItem specMenu "edit:undo").map MenuItem.accelerator = some (some "CmdOrCtrl+Z") ∧
      (findItem specMenu "edit:redo").map MenuItem.accelerator =
        some (some "CmdOrCtrl+Shift+Z") ∧
      (findItem specMenu "view:reset").map MenuItem.accelerator = some (some "CmdOrCtrl+0") ∧
      (findItem specMenu "edit:clear").map MenuItem.accelerator = some none :=
  c4_accelerators SetupEnv.allOk specMenu rfl rfl

/-- C5: for every menu event the host delivers for one of the custom items
declared in the attached menu, every window event the callback emits is named
"menu-event" and carries that item's id, which lies in the fixed declared set;
and exactly one declared item carries that id. -/
theorem c5_payload_declared (env : SetupEnv) (m : Menu) (windows : List String)
    (emitRes : EmitResult) (id : String)
    (h : (setup env).result = .ok ()) (hm : (setup env).attachedMenu = some m)
    (hid : id ∈ menuItemIds m) :
    (∀ em ∈ on_menu_event windows emitRes id,
        em.event = "menu-event" ∧ em.payload = id ∧
          em.payload ∈ (["edit:undo", "edit:redo", "edit:clear", "view:reset"] : List String)) ∧
      (menuItemIds m).count id = 1 := by
  have henv : env = SetupEnv.allOk := (setup_ok_iff env).mp h
  subst henv
  have hsm : some specMenu = some m := hm
  have hmsm : m = specMenu := (Option.some.inj hsm).symm
  subst hmsm
  have hid4 : id ∈ (["edit:undo", "edit:redo", "edit:clear", "view:reset"] : List String) := hid
  constructor
  · intro em hem
    rw [on_menu_event] at hem
    cases hw : get_webview_window windows "main" with
    | none => rw [hw] at hem; simp at hem
    | some w =>
      rw [hw] at hem
      simp only [List.mem_singleton] at hem
      subst hem
      exact ⟨rfl, rfl, hid4⟩
  · have hids : menuItemIds specMenu = ["edit:undo", "edit:redo", "edit:clear", "view:reset"] :=
      rfl
    rw [hids]
    simp only [List.mem_cons, List.not_mem_nil, or_false] at hid4
    rcases hid4 with rfl | rfl | rfl | rfl <;> decide

/-- Witness for C5 at a concrete input: all-success environment, windows
`["main"]`, delivered id "view:reset". -/
theorem c5_payload_declared_witness :
    (∀ em ∈ on_menu_event ["main"] EmitResult.ok "view:reset",
        em.event = "menu-event" ∧ em.payload = "view:reset" ∧
          em.payload ∈ (["edit:undo", "edit:redo", "edit:clear", "view:reset"] : List String)) ∧
      (menuItemIds specMenu).count "view:reset" = 1 :=
  c5_payload_declared SetupEnv.allOk specMenu ["main"] EmitResult.ok "view:reset"
    rfl rfl (by decide)

/-- A menu activation delivered by the host while the app is running: the
window labels existing at delivery time, the activated item's id, and the
host-determined result of the `emit` call the callback may make. -/
structure MenuEventIn where
  windows : List String
  eventId : String
  emitRes : EmitResult
deriving Repr, DecidableEq

/-- The application state this layer touches after setup: the attached menu
and whether the menu-event callback is registered. -/
structure AppState where
  attachedMenu : Option Menu
  handlerRegistered : Bool
deriving Repr

/-- Delivery of one menu event to the registered callback: the callback reads
the window registry and emits; it does not modify application state. -/
def handleMenuEvent (st : AppState) (ev : MenuEventIn) : AppState × List Emission :=
  (st, on_menu_event ev.windows ev.emitRes ev.eventId)

/-- Deliver a list of menu events in order, collecting all emissions. -/
def processEvents (st : AppState) : List MenuEventIn → AppState × List Emission
  | [] => (st, [])
  | ev :: rest =>
    let p := handleMenuEvent st ev
    let q := processEvents p.1 rest
    (q.1, p.2 ++ q.2)

/-- Host-determined outcomes of the whole `run` function: initialization of
the three registered plugins (in registration order: opener, dialog, fs),
the setup closure's calls, and the run loop. -/
structure RunEnv where
  openerInit : Option String
  dialogInit : Option String
  fsInit : Option String
  setupEnv : SetupEnv
  runLoopErr : Option String
deriving Repr

/-- How the process ends: a Rust panic (from `.expect`) or a normal exit. -/
inductive Outcome where
  | panicked (msg : String)
  | exited (code : Nat)
deriving Repr, DecidableEq

/-- Process exit status: a Rust panic terminates the process with status 101;
otherwise the exit code is the one given. -/
def Outcome.exitCode : Outcome → Nat
  | .panicked _ => 101
  | .exited c => c

/-- `.expect(msg)` applied to an `Err(e)`: panic with the fixed diagnostic
followed by the error. -/
def expectPanic (msg e : String) : Outcome :=
  .panicked (msg ++ ": " ++ e)

/-- The fixed diagnostic string passed to `.expect` in `run`. -/
def runDiagnostic : String := "error while running tauri application"

/-- Observable outcome of a whole `run`: startup steps performed, final
application state, window events emitted, and how the process ends. -/
structure RunResult where
  steps : List Step
  finalState : AppState
  emissions : List Emission
  outcome : Outcome
deriving Repr

/-- Continuation of `run` after the three plugins initialized successfully:
run the setup closure; on its failure the builder's `run` returns the error
and `.expect` panics; on success process delivered menu events until the run
loop ends, panicking if the run loop reports an error. -/
def runAfterPlugins (so : SetupOutcome) (runLoopErr : Option String)
    (events : List MenuEventIn) : RunResult :=
  match so.result with
  | .error e =>
    ⟨[.registerPlugin "opener", .registerPlugin "dialog", .registerPlugin "fs"] ++ so.steps,
      ⟨so.attachedMenu, so.handlerRegistered⟩, [], expectPanic runDiagnostic e⟩
  | .ok _ =>
    let st : AppState := ⟨so.attachedMenu, so.handlerRegistered⟩
    let p := processEvents st events
    match runLoopErr with
    | some e =>
      ⟨[.registerPlugin "opener", .registerPlugin "dialog", .registerPlugin "fs"] ++
          so.steps ++ [.startRunLoop],
        p.1, p.2, expectPanic runDiagnostic e⟩
    | none =>
      ⟨[.registerPlugin "opener", .registerPlugin "dialog", .registerPlugin "fs"] ++
          so.steps ++ [.startRunLoop],
        p.1, p.2, .exited 0⟩

/-- The whole `run` function of `src-tauri/src/lib.rs`: initialize the three
plugins in registration order (any failure aborts startup before the setup
closure runs), then run setup, the run loop and the `.expect`. -/
def run (env : RunEnv) (events : List MenuEventIn) : RunResult :=
  match env.openerInit with
  | some e => ⟨[], ⟨none, false⟩, [], expectPanic runDiagnostic e⟩
  | none =>
  match env.dialogInit with
  | some e => ⟨[.registerPlugin "opener"], ⟨none, false⟩, [], expectPanic runDiagnostic e⟩
  | none =>
  match env.fsInit with
  | some e =>
    ⟨[.registerPlugin "opener", .registerPlugin "dialog"], ⟨none, false⟩, [],
      expectPanic runDiagnostic e⟩
  | none => runAfterPlugins (setup env.setupEnv) env.runLoopErr events

/-- Steps that construct or attach any part of the menu. -/
def Step.isMenuStep : Step → Bool
  | .buildItem _ => true
  | .buildSubmenu _ => true
  | .buildAbout => true
  | .buildMenu => true
  | .setMenu => true
  | _ => false

/-- Delivering menu events never changes the application state. -/
theorem processEvents_fst (st : AppState) (evs : List MenuEventIn) :
    (processEvents st evs).1 = st := by
  induction evs generalizing st with
  | nil => rfl
  | cons ev rest ih => simp [processEvents, handleMenuEvent, ih]

/-- When the setup closure fails, the run result records the plugin and setup
steps, keeps the setup closure's partial state, emits nothing, and panics
with the fixed diagnostic and the setup error. -/
theorem runAfterPlugins_error (so : SetupOutcome) (rl : Option String)
    (events : List MenuEventIn) (e : String) (h : so.result = .error e) :
    runAfterPlugins so rl events =
      ⟨[.registerPlugin "opener", .registerPlugin "dialog", .registerPlugin "fs"] ++ so.steps,
        ⟨so.attachedMenu, so.handlerRegistered⟩, [], expectPanic runDiagnostic e⟩ := by
  obtain ⟨steps, res, am, hr⟩ := so
  simp only at h
  subst h
  rfl

/-- C6: if initialization of any of the three plugins fails, startup aborts:
no menu item, submenu, menu or attachment step is performed, the callback is
never registered, nothing is emitted, and the process exits non-zero. -/
theorem c6_plugin_failure_before_menu (env : RunEnv) (events : List MenuEventIn)
    (h : env.openerInit ≠ none ∨ env.dialogInit ≠ none ∨ env.fsInit ≠ none) :
    (∀ s ∈ (run env events).steps, s.isMenuStep = false) ∧
      (run env events).finalState.handlerRegistered = false ∧
      (run env events).emissions = [] ∧
      (run env events).outcome.exitCode ≠ 0 := by
  obtain ⟨op, dl, fs, se, rl⟩ := env
  cases op <;> cases dl <;> cases fs <;>
    simp_all [run, Step.isMenuStep, Outcome.exitCode, expectPanic]

/-- Witness for C6 at a concrete input: the dialog plugin fails. -/
theorem c6_plugin_failure_before_menu_witness :
    (∀ s ∈ (run ⟨none, some "dialog failed", none, SetupEnv.allOk, none⟩ []).steps,
        s.isMenuStep = false) ∧
      (run ⟨none, some "dialog failed", none, SetupEnv.allOk, none⟩
          []).finalState.handlerRegistered = false ∧
      (run ⟨none, some "dialog failed", none, SetupEnv.allOk, none⟩ []).emissions = [] ∧
      (run ⟨none, some "dialog failed", none, SetupEnv.allOk, none⟩
          []).outcome.exitCode ≠ 0 :=
  c6_plugin_failure_before_menu ⟨none, some "dialog failed", none, SetupEnv.allOk, none⟩ []
    (Or.inr (Or.inl (by simp)))

/-- C7: if the run loop reports an error, the process panics with the fixed
diagnostic string followed by that error, hence terminates with a non-zero
status, and the run loop was started exactly once (no retry). -/
theorem c7_run_loop_failure (env : RunEnv) (events : List MenuEventIn) (e : String)
    (hop : env.openerInit = none) (hdl : env.dialogInit = none) (hfs : env.fsInit = none)
    (hsetup : (setup env.setupEnv).result = .ok ()) (hrl : env.runLoopErr = some e) :
    (run env events).outcome = .panicked (runDiagnostic ++ ": " ++ e) ∧
      (run env events).outcome.exitCode ≠ 0 ∧
      (run env events).steps.count .startRunLoop = 1 := by
  obtain ⟨op, dl, fs, se, rl⟩ := env
  simp only at hop hdl hfs hrl hsetup
  subst hop; subst hdl; subst hfs; subst hrl
  have hse : se = SetupEnv.allOk := (setup_ok_iff se).mp hsetup
  subst hse
  refine ⟨rfl, ?_, ?_⟩
  · have h101 : (run ⟨none, none, none, SetupEnv.allOk, some e⟩ events).outcome.exitCode =
        101 := rfl
    rw [h101]
    omega
  · have hsteps : (run ⟨none, none, none, SetupEnv.allOk, some e⟩ events).steps =
        [.registerPlugin "opener", .registerPlugin "dialog", .registerPlugin "fs",
         .buildItem "edit:undo", .buildItem "edit:redo", .buildItem "edit:clear",
         .buildSubmenu "Edit", .buildItem "view:reset", .buildSubmenu "View", .buildAbout,
         .buildMenu, .setMenu, .registerMenuHandler, .startRunLoop] := rfl
    rw [hsteps]
    decide

/-- Witness for C7 at a concrete input: run loop fails with "loop failed". -/
theorem c7_run_loop_failure_witness :
    (run ⟨none, none, none, SetupEnv.allOk, some "loop failed"⟩ []).outcome =
        .panicked (runDiagnostic ++ ": " ++ "loop failed") ∧
      (run ⟨none, none, none, SetupEnv.allOk, some "loop failed"⟩
          []).outcome.exitCode ≠ 0 ∧
      (run ⟨none, none, none, SetupEnv.allOk, some "loop failed"⟩ []).steps.count
          .startRunLoop = 1 :=
  c7_run_loop_failure ⟨none, none, none, SetupEnv.allOk, some "loop failed"⟩ []
    "loop failed" rfl rfl rfl rfl rfl

/-- C8: delivering menu events never changes the application state, and in a
run whose startup succeeded the attached menu is still exactly the
constructed menu after any sequence of delivered menu events. -/
theorem c8_menu_never_mutated (env : RunEnv) (events : List MenuEventIn)
    (hop : env.openerInit = none) (hdl : env.dialogInit = none) (hfs : env.fsInit = none)
    (hsetup : (setup env.setupEnv).result = .ok ()) :
    (∀ (st : AppState) (evs : List MenuEventIn), (processEvents st evs).1 = st) ∧
      (run env events).finalState.attachedMenu = some specMenu ∧
      (run env events).finalState.handlerRegistered = true := by
  obtain ⟨op, dl, fs, se, rl⟩ := env
  simp only at hop hdl hfs hsetup
  subst hop; subst hdl; subst hfs
  have hse : se = SetupEnv.allOk := (setup_ok_iff se).mp hsetup
  subst hse
  have hfinal : (run ⟨none, none, none, SetupEnv.allOk, rl⟩ events).finalState =
      ⟨some specMenu, true⟩ := by
    cases rl with
    | none =>
      show (processEvents ⟨some specMenu, true⟩ events).1 = ⟨some specMenu, true⟩
      exact processEvents_fst _ _
    | some e =>
      show (processEvents ⟨some specMenu, true⟩ events).1 = ⟨some specMenu, true⟩
      exact processEvents_fst _ _
  exact ⟨fun st evs => processEvents_fst st evs, by rw [hfinal], by rw [hfinal]⟩

/-- Witness for C8 at a concrete input: one delivered event. -/
theorem c8_menu_never_mutated_witness :
    (∀ (st : AppState) (evs : List MenuEventIn), (processEvents st evs).1 = st) ∧
      (run ⟨none, none, none, SetupEnv.allOk, none⟩
          [⟨["main"], "edit:undo", EmitResult.ok⟩]).finalState.attachedMenu =
        some specMenu ∧
      (run ⟨none, none, none, SetupEnv.allOk, none⟩
          [⟨["main"], "edit:undo", EmitResult.ok⟩]).finalState.handlerRegistered = true :=
  c8_menu_never_mutated ⟨none, none, none, SetupEnv.allOk, none⟩
    [⟨["main"], "edit:undo", EmitResult.ok⟩] rfl rfl rfl rfl

/-- C9: the callback's behaviour is identical whether the emit succeeds or
fails — the emit result is discarded, nothing is propagated, and while "main"
exists the emit is attempted exactly once (no retry). -/
theorem c9_emit_failure_discarded (windows : List String) (eventId e : String)
    (h : "main" ∈ windows) :
    on_menu_event windows (EmitResult.error e) eventId =
        on_menu_event windows EmitResult.ok eventId ∧
      (on_menu_event windows (EmitResult.error e) eventId).length = 1 := by
  constructor
  · simp [on_menu_event]
  · simp [on_menu_event, get_webview_window_main, h]

/-- Witness for C9 at a concrete input: emit fails with "channel closed". -/
theorem c9_emit_failure_discarded_witness :
    on_menu_event ["main"] (EmitResult.error "channel closed") "edit:clear" =
        on_menu_event ["main"] EmitResult.ok "edit:clear" ∧
      (on_menu_event ["main"] (EmitResult.error "channel closed") "edit:clear").length = 1 :=
  c9_emit_failure_discarded ["main"] "edit:clear" "channel closed" (by decide)

/-- C10: if any setup step fails, the setup closure returns that error, the
callback is never registered, and the run emits no window event at all; the
process panics with the fixed diagnostic and the setup error. -/
theorem c10_setup_failure_atomic (env : RunEnv) (events : List MenuEventIn) (e : String)
    (hop : env.openerInit = none) (hdl : env.dialogInit = none) (hfs : env.fsInit = none)
    (hsetup : (setup env.setupEnv).result = .error e) :
    (setup env.setupEnv).handlerRegistered = false ∧
      (run env events).finalState.handlerRegistered = false ∧
      (run env events).emissions = [] ∧
      (run env events).outcome = .panicked (runDiagnostic ++ ": " ++ e) := by
  obtain ⟨op, dl, fs, se, rl⟩ := env
  simp only at hop hdl hfs hsetup
  subst hop; subst hdl; subst hfs
  have hh : (setup se).handlerRegistered = false := by
    rcases setup_dichotomy se with hok | ⟨hh, _⟩
    · rw [hsetup] at hok
      exact absurd hok (by simp)
    · exact hh
  have hrun : run ⟨none, none, none, se, rl⟩ events =
      ⟨[.registerPlugin "opener", .registerPlugin "dialog", .registerPlugin "fs"] ++
          (setup se).steps,
        ⟨(setup se).attachedMenu, (setup se).handlerRegistered⟩, [],
        expectPanic runDiagnostic e⟩ := by
    show runAfterPlugins (setup se) rl events = _
    exact runAfterPlugins_error (setup se) rl events e hsetup
  rw [hrun]
  exact ⟨hh, hh, rfl, rfl⟩

/-- Witness for C10 at a concrete input: building the Edit submenu fails. -/
theorem c10_setup_failure_atomic_witness :
    (setup ⟨none, none, none, some "edit submenu failed", none, none, none, none,
        none⟩).handlerRegistered = false ∧
      (run ⟨none, none, none,
          ⟨none, none, none, some "edit submenu failed", none, none, none, none, none⟩, none⟩
          [⟨["main"], "edit:undo", EmitResult.ok⟩]).finalState.handlerRegistered = false ∧
      (run ⟨none, none, none,
          ⟨none, none, none, some "edit submenu failed", none, none, none, none, none⟩, none⟩
          [⟨["main"], "edit:undo", EmitResult.ok⟩]).emissions = [] ∧
      (run ⟨none, none, none,
          ⟨none, none, none, some "edit submenu failed", none, none, none, none, none⟩, none⟩
          [⟨["main"], "edit:undo", EmitResult.ok⟩]).outcome =
        .panicked (runDiagnostic ++ ": " ++ "edit submenu failed") :=
  c10_setup_failure_atomic
    ⟨none, none, none,
      ⟨none, none, none, some "edit submenu failed", none, none, none, none, none⟩, none⟩
    [⟨["main"], "edit:undo", EmitResult.ok⟩] "edit submenu failed" rfl rfl rfl rfl

end Binblock
